import Mathlib

/-!
Verification of the sidecar supervisor and metrics aggregator of
`divoom-monitor` (`src-tauri/src/system_metrics.rs`), as a shallow
embedding in Lean 4.

Modelling conventions:
* `f32` sensor values are modelled as `ℚ`; every comparison performed by the
  code is an order comparison on plain decimal literals, where `f32` and `ℚ`
  agree.
* `u64` quantities are modelled as `Nat`; the only arithmetic performed on
  them is `saturating_sub`, which coincides with truncated `Nat` subtraction.
* External effects (the sidecar HTTP endpoint, sysinfo component list, WMI,
  NVML, the filesystem, TCP probes, process spawning) are captured in
  explicit environment records; each embedded function is a pure function of
  the environment and, where relevant, of supervisor state, and additionally
  reports the observable events it performed (spawns, probes, kills).
-/

namespace Divoom

/-- A disk usage record (struct `DiskUsage`). `usage_percent` is `f32` in the
source, modelled as `ℚ`. -/
structure DiskUsage where
  name : String
  mount_point : String
  total_space : Nat
  available_space : Nat
  used_space : Nat
  usage_percent : ℚ
deriving DecidableEq, Repr

/-- The aggregate metrics record (struct `SystemMetrics`). -/
structure SystemMetrics where
  cpu_usage : ℚ
  cpu_temperature : Option ℚ
  gpu_usage : Option ℚ
  gpu_temperature : Option ℚ
  memory_total : Nat
  memory_used : Nat
  disks : List DiskUsage
deriving DecidableEq, Repr

/-- The temperatures-only view of the sidecar body (struct
`SidecarTemperatures`). -/
structure SidecarTemperatures where
  cpu_temperature : Option ℚ
  gpu_temperature : Option ℚ
deriving DecidableEq, Repr

/-- A JSON object returned by the sidecar endpoint, field-presence made
explicit. Serde deserializes a missing field to `None` for `Option` fields
and fails for the required fields, so presence of each field is what decides
which of the two parses succeed. -/
structure SidecarBody where
  cpu_usage : Option ℚ
  cpu_temperature : Option ℚ
  gpu_usage : Option ℚ
  gpu_temperature : Option ℚ
  memory_total : Option Nat
  memory_used : Option Nat
  disks : Option (List DiskUsage)
deriving DecidableEq, Repr

/-- One sysinfo component: a labelled temperature sensor. -/
structure Component where
  label : String
  temperature : ℚ
deriving DecidableEq, Repr

/-- Whether the first character list is an initial segment of the second. -/
def leadSeq : List Char → List Char → Bool
  | [], _ => true
  | _ :: _, [] => false
  | a :: as, b :: bs => a == b && leadSeq as bs

/-- Whether `pat` occurs as a substring of `s` (Rust `str::contains`). -/
def strContains (s pat : String) : Bool :=
  (List.range (s.length + 1)).any (fun i => leadSeq pat.data (s.data.drop i))

/-- Source `find_temperature`: scan the component list, keep the maximum temperature
among components whose lowercased label contains one of the keywords. -/
def find_temperature (components : List Component) (keywords : List String) :
    Option ℚ :=
  components.foldl
    (fun best c =>
      let label := c.label.toLower
      if keywords.any (fun keyword => strContains label keyword) then
        match best with
        | none => some c.temperature
        | some current => some (max current c.temperature)
      else best)
    none

/-- Source `normalize_temperature`: keep a reading only if it lies in the inclusive
plausible range `-30.0 ..= 200.0`; otherwise discard it (never clamp). -/
def normalize_temperature (value : Option ℚ) : Option ℚ :=
  value.bind (fun temp => if -30 ≤ temp ∧ temp ≤ 200 then some temp else none)

/-- Deserialization of a sidecar body as a full `SystemMetrics` record:
`cpu_usage`, `memory_total`, `memory_used` and `disks` are required fields,
the rest default to `None` when absent. -/
def parseSystemMetrics (b : SidecarBody) : Option SystemMetrics :=
  match b.cpu_usage, b.memory_total, b.memory_used, b.disks with
  | some cu, some mt, some mu, some ds =>
    some { cpu_usage := cu
           cpu_temperature := b.cpu_temperature
           gpu_usage := b.gpu_usage
           gpu_temperature := b.gpu_temperature
           memory_total := mt
           memory_used := mu
           disks := ds }
  | _, _, _, _ => none

/-- The environment a single `get_system_metrics` call observes. `sidecar`
is `some body` when the HTTP GET to `localhost:8765/` succeeds with a
success status and a readable body; `none` covers connection failure,
timeout, a non-success status and an unreadable body. The probe fields model
what `wmi_cpu_temperature`, `nvml_gpu_temperature` and `nvml_gpu_usage`
would return (always `none` off Windows, where they are compiled out). -/
structure CollectEnv where
  sidecar : Option SidecarBody
  components : List Component
  wmiCpuTemp : Option ℚ
  nvmlGpuTemp : Option ℚ
  nvmlGpuUsage : Option ℚ
  sysCpuUsage : ℚ
  memTotal : Nat
  memUsed : Nat
  diskList : List (String × String × Nat × Nat)
  isWindows : Bool
deriving DecidableEq, Repr

/-- Source `sidecar_metrics`: fetch the sidecar body and parse it as a full
`SystemMetrics` record; any failure yields `none`. No normalization is
applied here. -/
def sidecar_metrics (env : CollectEnv) : Option SystemMetrics :=
  env.sidecar.bind parseSystemMetrics

/-- Source `sidecar_temperatures`: fetch the sidecar body, parse only the two
optional temperature fields (this parse cannot fail on a well-formed body),
then normalize both fields. -/
def sidecar_temperatures (env : CollectEnv) : Option SidecarTemperatures :=
  env.sidecar.map (fun b =>
    { cpu_temperature := normalize_temperature b.cpu_temperature
      gpu_temperature := normalize_temperature b.gpu_temperature })

/-- The platform-conditional CPU-temperature chain tried after the sidecar:
WMI first on Windows, then the keyword-matched sysinfo components; only the
sysinfo components elsewhere. -/
def cpu_temp_fallback (env : CollectEnv) : Option ℚ :=
  if env.isWindows then
    match env.wmiCpuTemp with
    | some t => some t
    | none => find_temperature env.components ["cpu", "package"]
  else
    find_temperature env.components ["cpu", "package"]

/-- The platform-conditional GPU-temperature chain tried after the sidecar:
NVML first on Windows, then the keyword-matched sysinfo components; only the
sysinfo components elsewhere. -/
def gpu_temp_fallback (env : CollectEnv) : Option ℚ :=
  if env.isWindows then
    match env.nvmlGpuTemp with
    | some t => some t
    | none => find_temperature env.components ["gpu", "graphics"]
  else
    find_temperature env.components ["gpu", "graphics"]

/-- Source `get_cpu_temperature`: prefer a present (normalized) sidecar CPU
temperature, otherwise fall through to the platform chain. -/
def get_cpu_temperature (env : CollectEnv) : Option ℚ :=
  match sidecar_temperatures env with
  | some temps =>
    match temps.cpu_temperature with
    | some t => some t
    | none => cpu_temp_fallback env
  | none => cpu_temp_fallback env

/-- Source `get_gpu_temperature`: prefer a present (normalized) sidecar GPU
temperature, otherwise fall through to the platform chain. -/
def get_gpu_temperature (env : CollectEnv) : Option ℚ :=
  match sidecar_temperatures env with
  | some temps =>
    match temps.gpu_temperature with
    | some t => some t
    | none => gpu_temp_fallback env
  | none => gpu_temp_fallback env

/-- The disk record built in `get_system_metrics` from one sysinfo disk
`(name, mount_point, total_space, available_space)`: `used_space` by
`saturating_sub`, `usage_percent` guarded against a zero `total_space`. -/
def mkDiskUsage (d : String × String × Nat × Nat) : DiskUsage :=
  let total_space := d.2.2.1
  let available_space := d.2.2.2
  let used_space := total_space - available_space
  let usage_percent : ℚ :=
    if total_space > 0 then (used_space : ℚ) / (total_space : ℚ) * 100 else 0
  { name := d.1
    mount_point := d.2.1
    total_space := total_space
    available_space := available_space
    used_space := used_space
    usage_percent := usage_percent }

/-- Source `get_system_metrics` (the `Collect` command). If the sidecar body parses
as a full record it is returned as-is, except that a missing `gpu_usage` is
filled from NVML on Windows. Otherwise everything is rebuilt from sysinfo,
with the temperature chains of `get_cpu_temperature` /
`get_gpu_temperature`. -/
def get_system_metrics (env : CollectEnv) : Except String SystemMetrics :=
  match sidecar_metrics env with
  | some metrics =>
    if metrics.gpu_usage.isNone && env.isWindows then
      .ok { metrics with gpu_usage := env.nvmlGpuUsage }
    else
      .ok metrics
  | none =>
    .ok { cpu_usage := env.sysCpuUsage
          cpu_temperature := get_cpu_temperature env
          gpu_usage := if env.isWindows then env.nvmlGpuUsage else none
          gpu_temperature := get_gpu_temperature env
          memory_total := env.memTotal
          memory_used := env.memUsed
          disks := env.diskList.map mkDiskUsage }

/-- A filesystem path: an absolute flag plus components. Rust `Path::join`
replaces the base when the argument is absolute; `Path::parent` drops the
last component and is `None` on an empty path. -/
structure FsPath where
  absolute : Bool
  comps : List String
deriving DecidableEq, Repr

/-- Rust `Path::join`. -/
def FsPath.join (base p : FsPath) : FsPath :=
  if p.absolute then p else { absolute := base.absolute, comps := base.comps ++ p.comps }

/-- Rust `Path::parent` (simplified to component dropping). -/
def FsPath.parent (p : FsPath) : Option FsPath :=
  match p.comps with
  | [] => none
  | _ :: _ => some { absolute := p.absolute, comps := p.comps.dropLast }

/-- The filesystem/process environment `find_sidecar_path` observes:
the `LHM_SIDECAR_PATH` variable, `current_dir()`, `current_exe()` and the
set of existing paths. -/
structure PathEnv where
  envVar : Option FsPath
  currentDir : Option FsPath
  currentExe : Option FsPath
  existing : List FsPath
deriving DecidableEq, Repr

/-- Rust `Path::exists` against the file set of the environment. -/
def pathExists (env : PathEnv) (p : FsPath) : Bool :=
  decide (p ∈ env.existing)

/-- The two error messages `find_sidecar_path` can produce, with the data
interpolated into the message kept structurally: the override variant
carries the override path and the CWD-resolved candidate, exactly the data
the source formats into the string. -/
inductive PathError where
  | overrideNotFound (envPath : FsPath) (cwdTried : Option FsPath)
  | sidecarNotFound
deriving DecidableEq, Repr

/-- The sidecar executable name (`SIDECAR_EXE_NAME`). -/
def SIDECAR_EXE_NAME : String := "HardwareMonitorCli.exe"

/-- Source `find_sidecar_path`: with the override set, try it absolute, then joined
to the CWD, then joined to the directory of the executable, and fail with the
override error if none exists; without the override, try the directory of the
executable and its `sidecar/` subdirectory. -/
def find_sidecar_path (env : PathEnv) : Except PathError FsPath :=
  match env.envVar with
  | some path =>
    if path.absolute && pathExists env path then
      .ok path
    else
      let cwd_resolved := env.currentDir.map (fun cwd => cwd.join path)
      let exe_try : Except PathError FsPath :=
        match (env.currentExe.bind FsPath.parent).map (fun d => d.join path) with
        | some exe_resolved =>
          if pathExists env exe_resolved then .ok exe_resolved
          else .error (.overrideNotFound path cwd_resolved)
        | none => .error (.overrideNotFound path cwd_resolved)
      match cwd_resolved with
      | some p => if pathExists env p then .ok p else exe_try
      | none => exe_try
  | none =>
    match env.currentExe.bind FsPath.parent with
    | some exe_dir =>
      let next_to_exe := exe_dir.join { absolute := false, comps := [SIDECAR_EXE_NAME] }
      if pathExists env next_to_exe then
        .ok next_to_exe
      else
        let in_sidecar_dir :=
          exe_dir.join { absolute := false, comps := ["sidecar", SIDECAR_EXE_NAME] }
        if pathExists env in_sidecar_dir then .ok in_sidecar_dir
        else .error .sidecarNotFound
    | none => .error .sidecarNotFound

/-- Supervisor-side shared state: the `SIDECAR_STARTING` flag, the stored
`SIDECAR_PROCESS` child handle, and a count of background threads spawned by
`setup_sidecar_service` (to state idempotency). -/
structure SupState where
  starting : Bool
  handle : Option Unit
  threads : Nat
deriving DecidableEq, Repr

/-- Observable events of one `start_sidecar_service` run. `probeOk` is the
pre-spawn 100 ms liveness probe connecting; `spawn` is any `Command::spawn`
(the elevation launcher on Windows, the sidecar itself elsewhere). -/
inductive StartEvent where
  | probeOk
  | spawn
deriving DecidableEq, Repr

/-- The errors `start_sidecar_service` can report (the source formats each
as a string; the constructors follow the format strings). -/
inductive StartError where
  | pathError (e : PathError)
  | addrParseFailed
  | spawnFailed
  | elevatedLaunchFailed
  | crashedImmediately
  | tryWaitFailed
  | livenessTimeout
  | panicked
deriving DecidableEq, Repr

/-- The environment one `start_sidecar_service` run observes: the path
environment, whether the pre-spawn probe connects (`portBound`), the
platform, whether `Command::spawn` succeeds, the exit status of the elevation
launcher (Windows), the outcome of `try_wait` (non-Windows), and whether any poll
of the bounded retry loop connects. -/
structure StartEnv where
  pathEnv : PathEnv
  portBound : Bool
  isWindows : Bool
  spawnOk : Bool
  elevatedLaunchOk : Bool
  tryWaitOk : Bool
  immediateExit : Bool
  becomesLive : Bool
deriving DecidableEq, Repr

/-- Source `start_sidecar_service`: resolve the path, short-circuit on a live port,
spawn (platform-dependently), store the child handle only on the
non-elevated path, then poll the port on a bounded retry loop. Returns the
result, the updated supervisor state, and the events performed. The
`catch_unwind` wrapper of the source converts a panic into `Err`; panics
are modelled at the thread-body level (`sidecar_thread_body`). -/
def start_sidecar_service (env : StartEnv) (s : SupState) :
    Except StartError Unit × SupState × List StartEvent :=
  match find_sidecar_path env.pathEnv with
  | .error e => (.error (.pathError e), s, [])
  | .ok _resolved =>
    if env.portBound then
      (.ok (), s, [.probeOk])
    else if env.isWindows then
      if !env.spawnOk then
        (.error .spawnFailed, s, [.spawn])
      else if !env.elevatedLaunchOk then
        (.error .elevatedLaunchFailed, s, [.spawn])
      else if env.becomesLive then
        (.ok (), s, [.spawn])
      else
        (.error .livenessTimeout, s, [.spawn])
    else
      if !env.spawnOk then
        (.error .spawnFailed, s, [.spawn])
      else if env.immediateExit then
        (.error .crashedImmediately, s, [.spawn])
      else if !env.tryWaitOk then
        (.error .tryWaitFailed, s, [.spawn])
      else
        let s1 := { s with handle := some () }
        if env.becomesLive then
          (.ok (), s1, [.spawn])
        else
          (.error .livenessTimeout, s1, [.spawn])

/-- The synchronous entry of `setup_sidecar_service`: under the
`SIDECAR_STARTING` lock, return at once if a start attempt is in flight,
otherwise set the flag and spawn the background thread. The returned `Bool`
is whether a thread was spawned. -/
def setup_sidecar_service (s : SupState) : SupState × Bool :=
  if s.starting then
    (s, false)
  else
    ({ s with starting := true, threads := s.threads + 1 }, true)

/-- How the body of the background thread terminates: normally (running
`start_sidecar_service` against some environment), or by a panic that
unwinds at an arbitrary intermediate supervisor state. -/
inductive BodyOutcome where
  | normal (env : StartEnv)
  | panicAt (s1 : SupState)

/-- The background thread spawned by `setup_sidecar_service`: its body runs
`start_sidecar_service` and then clears the flag; the surrounding
`catch_unwind` clears the flag as well when the body panicked. -/
def sidecar_thread_body (outcome : BodyOutcome) (s : SupState) : SupState :=
  match outcome with
  | .normal env => { (start_sidecar_service env s).2.1 with starting := false }
  | .panicAt s1 => { s1 with starting := false }

/-- Observable events of one `stop_sidecar_service` run. -/
inductive StopEvent where
  | gracefulRequest
  | childKilled
  | taskkill
deriving DecidableEq, Repr

/-- The environment one `stop_sidecar_service` run observes: whether the
500 ms connect to the liveness port succeeds, whether writing the shutdown
request succeeds, and the platform. -/
structure StopEnv where
  gracefulConnectOk : Bool
  gracefulWriteOk : Bool
  isWindows : Bool
deriving DecidableEq, Repr

/-- Source `stop_sidecar_service`: attempt the graceful HTTP shutdown (connection
failure is treated as already stopped, not an error), kill and clear the
stored child handle if one is held, and only otherwise — when the graceful
request did not go through — fall back to the name-based `taskkill` on
Windows. The function returns nothing and absorbs every failure. -/
def stop_sidecar_service (env : StopEnv) (s : SupState) :
    SupState × List StopEvent :=
  let shutdown_ok := env.gracefulConnectOk && env.gracefulWriteOk
  let graceful_events := if shutdown_ok then [StopEvent.gracefulRequest] else []
  match s.handle with
  | some _ => ({ s with handle := none }, graceful_events ++ [.childKilled])
  | none =>
    if !shutdown_ok && env.isWindows then
      (s, graceful_events ++ [.taskkill])
    else
      (s, graceful_events)

/-- The idle supervisor state: no attempt in flight, no handle, no threads. -/
def supIdle : SupState := { starting := false, handle := none, threads := 0 }

/-- A supervisor state with a start attempt in flight. -/
def supStarting : SupState := { starting := true, handle := none, threads := 1 }

/-- A stop environment where the graceful connection fails, on Windows. -/
def stopEnvW : StopEnv :=
  { gracefulConnectOk := false, gracefulWriteOk := false, isWindows := true }

/-- A collect environment with one disk whose available space exceeds its
total space, and no sidecar. -/
def collectEnvDisk : CollectEnv :=
  { sidecar := none, components := [], wmiCpuTemp := none, nvmlGpuTemp := none
    nvmlGpuUsage := none, sysCpuUsage := 0, memTotal := 0, memUsed := 0
    diskList := [("b", "/b", 10, 20)], isWindows := false }

/-- The metrics value `get_system_metrics` returns on `collectEnvDisk`. -/
def metricsDisk : SystemMetrics :=
  { cpu_usage := 0, cpu_temperature := none, gpu_usage := none
    gpu_temperature := none, memory_total := 0, memory_used := 0
    disks := [mkDiskUsage ("b", "/b", 10, 20)] }

/-- Every optional-field source failing at once: no sidecar response, no
WMI or NVML reading, and no keyword-matched component temperature. -/
def totalSourceFailure (env : CollectEnv) : Bool :=
  env.sidecar.isNone && env.wmiCpuTemp.isNone && env.nvmlGpuTemp.isNone &&
    env.nvmlGpuUsage.isNone &&
    (find_temperature env.components ["cpu", "package"]).isNone &&
    (find_temperature env.components ["gpu", "graphics"]).isNone

/-- A collect environment where every optional-field source fails. -/
def collectEnvFail : CollectEnv :=
  { sidecar := none, components := [], wmiCpuTemp := none, nvmlGpuTemp := none
    nvmlGpuUsage := none, sysCpuUsage := 5, memTotal := 16, memUsed := 8
    diskList := [], isWindows := false }

/-- A sidecar body that parses as a full record and carries an out-of-range
CPU temperature of `500`. -/
def bodyHot : SidecarBody :=
  { cpu_usage := some 10, cpu_temperature := some 500, gpu_usage := some 1
    gpu_temperature := some 40, memory_total := some 8, memory_used := some 4
    disks := some [] }

/-- A collect environment answering with `bodyHot`, whose local sensor
readers all disagree with the sidecar. -/
def envHot : CollectEnv :=
  { sidecar := some bodyHot, components := [], wmiCpuTemp := none
    nvmlGpuTemp := none, nvmlGpuUsage := none, sysCpuUsage := 0, memTotal := 0
    memUsed := 0, diskList := [], isWindows := false }

/-- A sidecar body missing the required fields (it does not parse as a full
record) whose CPU temperature is out of range while its GPU temperature is
in range. -/
def bodyPartialHot : SidecarBody :=
  { cpu_usage := none, cpu_temperature := some 500, gpu_usage := none
    gpu_temperature := some 40, memory_total := none, memory_used := none
    disks := none }

/-- A collect environment answering with `bodyPartialHot`, with a CPU
component sensor available. -/
def envPartialHot : CollectEnv :=
  { sidecar := some bodyPartialHot
    components := [{ label := "CPU Package", temperature := 55 }]
    wmiCpuTemp := none, nvmlGpuTemp := none, nvmlGpuUsage := none
    sysCpuUsage := 3, memTotal := 16, memUsed := 8, diskList := []
    isWindows := false }

/-- A path environment where the directory of the executable holds the sidecar
under its conventional name. -/
def pathEnvOk : PathEnv :=
  { envVar := none
    currentDir := none
    currentExe := some { absolute := true, comps := ["app", "main.exe"] }
    existing := [{ absolute := true, comps := ["app", "HardwareMonitorCli.exe"] }] }

/-- A path environment with the override set to a nonexistent file while a
conventional candidate does exist. -/
def pathEnvOverrideMissing : PathEnv :=
  { envVar := some { absolute := false, comps := ["missing.exe"] }
    currentDir := some { absolute := true, comps := ["cwd"] }
    currentExe := some { absolute := true, comps := ["app", "main.exe"] }
    existing := [{ absolute := true, comps := ["app", "HardwareMonitorCli.exe"] }] }

/-- A start environment where the liveness port already answers. -/
def startEnvLive : StartEnv :=
  { pathEnv := pathEnvOk, portBound := true, isWindows := false
    spawnOk := true, elevatedLaunchOk := true, tryWaitOk := true
    immediateExit := false, becomesLive := true }

/-- C6: `normalize_temperature` returns the input unchanged for every value
in the inclusive range `[-30, 200]` and returns `none` for every value
outside it, never clamping; in particular it maps `-40` to `none`, `-29.9`
to itself, `200` to itself and `200.1` to `none`. -/
theorem claim_C6 (t : ℚ) :
    (-30 ≤ t → t ≤ 200 → normalize_temperature (some t) = some t) ∧
    ((t < -30 ∨ 200 < t) → normalize_temperature (some t) = none) ∧
    normalize_temperature (some (-40)) = none ∧
    normalize_temperature (some (-299/10)) = some (-299/10) ∧
    normalize_temperature (some 200) = some 200 ∧
    normalize_temperature (some (2001/10)) = none := by
  have hin : ∀ u : ℚ, -30 ≤ u → u ≤ 200 → normalize_temperature (some u) = some u := by
    intro u h1 h2
    simp [normalize_temperature, h1, h2]
  have hout : ∀ u : ℚ, (u < -30 ∨ 200 < u) → normalize_temperature (some u) = none := by
    intro u h
    have hn : ¬(-30 ≤ u ∧ u ≤ 200) := by
      rcases h with h | h
      · exact fun hc => absurd hc.1 (not_le.mpr h)
      · exact fun hc => absurd hc.2 (not_le.mpr h)
    simp [normalize_temperature, hn]
  exact ⟨hin t, hout t,
    hout (-40) (Or.inl (by norm_num)),
    hin (-299/10) (by norm_num) (by norm_num),
    hin 200 (by norm_num) (by norm_num),
    hout (2001/10) (Or.inr (by norm_num))⟩

/-- Witness for C6: the range cases applied at `45` and `500`. -/
theorem claim_C6_witness :
    normalize_temperature (some 45) = some 45 ∧
    normalize_temperature (some 500) = none :=
  ⟨(claim_C6 45).1 (by norm_num) (by norm_num),
   (claim_C6 500).2.1 (Or.inr (by norm_num))⟩

/-- C3: the background task of `setup_sidecar_service` resets the
`SIDECAR_STARTING` flag on every exit path, including when the body panics,
so a subsequent start attempt proceeds normally (spawns its thread) instead
of being permanently disabled. -/
theorem claim_C3 (outcome : BodyOutcome) (s : SupState) :
    (sidecar_thread_body outcome s).starting = false ∧
    (setup_sidecar_service (sidecar_thread_body outcome s)).2 = true := by
  have h : (sidecar_thread_body outcome s).starting = false := by
    cases outcome <;> rfl
  exact ⟨h, by simp [setup_sidecar_service, h]⟩

/-- C8: while a start attempt is in flight (`starting = true`), a second
`setup_sidecar_service` call returns immediately with the state unchanged
and no thread spawned; hence two calls in rapid succession spawn exactly
one background thread. -/
theorem claim_C8 (s : SupState) (h : s.starting = true) :
    setup_sidecar_service s = (s, false) ∧
    ∀ s0 : SupState, s0.starting = false →
      setup_sidecar_service (setup_sidecar_service s0).1 =
        ((setup_sidecar_service s0).1, false) ∧
      (setup_sidecar_service s0).1.threads = s0.threads + 1 := by
  refine ⟨by simp [setup_sidecar_service, h], ?_⟩
  intro s0 h0
  exact ⟨by simp [setup_sidecar_service, h0], by simp [setup_sidecar_service, h0]⟩

/-- Witness for C8 at concrete states. -/
theorem claim_C8_witness :
    setup_sidecar_service supStarting = (supStarting, false) ∧
    (setup_sidecar_service (setup_sidecar_service supIdle).1 =
      ((setup_sidecar_service supIdle).1, false) ∧
     (setup_sidecar_service supIdle).1.threads = supIdle.threads + 1) :=
  ⟨(claim_C8 supStarting rfl).1, (claim_C8 supStarting rfl).2 supIdle rfl⟩

/-- C9: `stop_sidecar_service` when nothing is running and nothing was ever
started (no stored handle, graceful connection fails) leaves the supervisor
state unchanged, kills no stored child, records no graceful request (the
failed connection is treated as already stopped), and is idempotent. -/
theorem claim_C9 (env : StopEnv) (s : SupState)
    (hc : env.gracefulConnectOk = false) (hh : s.handle = none) :
    (stop_sidecar_service env s).1 = s ∧
    StopEvent.childKilled ∉ (stop_sidecar_service env s).2 ∧
    StopEvent.gracefulRequest ∉ (stop_sidecar_service env s).2 ∧
    stop_sidecar_service env (stop_sidecar_service env s).1 =
      stop_sidecar_service env s := by
  by_cases hw : env.isWindows <;>
    simp [stop_sidecar_service, hc, hh, hw]

/-- Witness for C9 at a concrete environment and state. -/
theorem claim_C9_witness :
    (stop_sidecar_service stopEnvW supIdle).1 = supIdle ∧
    StopEvent.childKilled ∉ (stop_sidecar_service stopEnvW supIdle).2 ∧
    StopEvent.gracefulRequest ∉ (stop_sidecar_service stopEnvW supIdle).2 ∧
    stop_sidecar_service stopEnvW (stop_sidecar_service stopEnvW supIdle).1 =
      stop_sidecar_service stopEnvW supIdle :=
  claim_C9 stopEnvW supIdle rfl rfl

/-- C10: every disk record constructed by `get_system_metrics` (records are
constructed only on the fallback path) satisfies
`used_space ≤ total_space` — the saturating subtraction cannot underflow —
and `usage_percent = 0` whenever `total_space = 0`, because the division is
guarded. -/
theorem claim_C10 (env : CollectEnv) (m : SystemMetrics)
    (hs : sidecar_metrics env = none)
    (hm : get_system_metrics env = .ok m) :
    ∀ du ∈ m.disks,
      du.used_space ≤ du.total_space ∧
      (du.total_space = 0 → du.usage_percent = 0) := by
  intro du hdu
  have hdisks : m.disks = env.diskList.map mkDiskUsage := by
    unfold get_system_metrics at hm
    rw [hs] at hm
    cases hm
    rfl
  rw [hdisks] at hdu
  rcases List.mem_map.mp hdu with ⟨d, _, rfl⟩
  constructor
  · simp [mkDiskUsage]
  · intro h0
    have h1 : d.2.2.1 = 0 := by simpa [mkDiskUsage] using h0
    simp [mkDiskUsage, h1]

/-- Witness for C10: a disk whose available space exceeds its total space. -/
theorem claim_C10_witness :
    (mkDiskUsage ("b", "/b", 10, 20)).used_space ≤
      (mkDiskUsage ("b", "/b", 10, 20)).total_space ∧
    ((mkDiskUsage ("b", "/b", 10, 20)).total_space = 0 →
      (mkDiskUsage ("b", "/b", 10, 20)).usage_percent = 0) :=
  claim_C10 collectEnvDisk metricsDisk rfl rfl
    (mkDiskUsage ("b", "/b", 10, 20)) (by simp [metricsDisk])

/-- C4: whenever the pre-spawn liveness probe connects (a listener is
already bound on port 8765), `start_sidecar_service` treats the sidecar as
already running: it returns success, performs no spawn, and leaves the
supervisor state unchanged. -/
theorem claim_C4 (env : StartEnv) (s : SupState)
    (h : StartEvent.probeOk ∈ (start_sidecar_service env s).2.2) :
    (start_sidecar_service env s).1 = .ok () ∧
    StartEvent.spawn ∉ (start_sidecar_service env s).2.2 ∧
    (start_sidecar_service env s).2.1 = s := by
  unfold start_sidecar_service at h ⊢
  cases hfp : find_sidecar_path env.pathEnv with
  | error e =>
    rw [hfp] at h
    simp at h
  | ok p =>
    rw [hfp] at h
    by_cases hb : env.portBound = true
    · simp [hb]
    · exfalso
      have hb0 : env.portBound = false := by simpa using hb
      rw [hb0] at h
      by_cases hw : env.isWindows = true <;>
        simp only [hw, Bool.false_eq_true, if_true, if_false] at h <;>
        split_ifs at h <;> simp at h

/-- Witness for C4: a live port with a resolvable path. -/
theorem claim_C4_witness :
    StartEvent.probeOk ∈ (start_sidecar_service startEnvLive supIdle).2.2 ∧
    (start_sidecar_service startEnvLive supIdle).1 = .ok () ∧
    StartEvent.spawn ∉ (start_sidecar_service startEnvLive supIdle).2.2 ∧
    (start_sidecar_service startEnvLive supIdle).2.1 = supIdle := by
  have hmem : StartEvent.probeOk ∈ (start_sidecar_service startEnvLive supIdle).2.2 := by
    decide
  exact ⟨hmem, claim_C4 startEnvLive supIdle hmem⟩

/-- C5: with `LHM_SIDECAR_PATH` set but none of its candidates existing
(absolute, CWD-joined, exe-dir-joined), `find_sidecar_path` fails with the
override error carrying the attempted paths, and never falls back to the
conventional locations (even when those exist). -/
theorem claim_C5 (env : PathEnv) (p : FsPath)
    (hv : env.envVar = some p)
    (h1 : ¬(p.absolute = true ∧ pathExists env p = true))
    (h2 : env.currentDir.map (fun cwd => pathExists env (cwd.join p)) ≠ some true)
    (h3 : (env.currentExe.bind FsPath.parent).map
        (fun d => pathExists env (d.join p)) ≠ some true) :
    find_sidecar_path env =
      .error (.overrideNotFound p (env.currentDir.map (fun cwd => cwd.join p))) := by
  have hcond : (p.absolute && pathExists env p) = false := by
    cases hA : p.absolute
    · rfl
    · cases hE : pathExists env p
      · rfl
      · exact absurd ⟨hA, hE⟩ h1
  unfold find_sidecar_path
  rw [hv]
  simp only [hcond, Bool.false_eq_true, if_false]
  cases hcd : env.currentDir with
  | none =>
    cases hce : env.currentExe.bind FsPath.parent with
    | none => simp
    | some d =>
      have hd : pathExists env (d.join p) = false := by
        rw [hce] at h3
        simpa using h3
      simp [hd]
  | some cwd =>
    have hcwd : pathExists env (cwd.join p) = false := by
      rw [hcd] at h2
      simpa using h2
    cases hce : env.currentExe.bind FsPath.parent with
    | none => simp [hcwd]
    | some d =>
      have hd : pathExists env (d.join p) = false := by
        rw [hce] at h3
        simpa using h3
      simp [hcwd, hd]

/-- Witness for C5: a relative override that exists nowhere, while the
conventional candidate next to the executable does exist. -/
theorem claim_C5_witness :
    find_sidecar_path pathEnvOverrideMissing =
      .error (.overrideNotFound { absolute := false, comps := ["missing.exe"] }
        (pathEnvOverrideMissing.currentDir.map
          (fun cwd => cwd.join { absolute := false, comps := ["missing.exe"] }))) :=
  claim_C5 pathEnvOverrideMissing { absolute := false, comps := ["missing.exe"] }
    rfl (by decide) (by decide) (by decide)

/-- C7: `get_system_metrics` never fails outward — it returns `Ok` for
every combination of sidecar and sensor availability — and total failure of
every optional-field source yields a metrics value with all optional fields
absent rather than an error. -/
theorem claim_C7 (env : CollectEnv) :
    (get_system_metrics env).isOk = true ∧
    (totalSourceFailure env = true →
      (get_system_metrics env).toOption.map (fun m =>
        (m.cpu_temperature, m.gpu_temperature, m.gpu_usage)) =
        some (none, none, none)) := by
  constructor
  · unfold get_system_metrics
    cases hs : sidecar_metrics env with
    | none => rfl
    | some m =>
      dsimp only
      by_cases h : (m.gpu_usage.isNone && env.isWindows) = true
      · rw [if_pos h]
        rfl
      · rw [if_neg h]
        rfl
  · intro ht
    simp only [totalSourceFailure, Bool.and_eq_true,
      Option.isNone_iff_eq_none] at ht
    obtain ⟨⟨⟨⟨⟨h1, h2⟩, h3⟩, h4⟩, h5⟩, h6⟩ := ht
    have hm : sidecar_metrics env = none := by simp [sidecar_metrics, h1]
    have hst : sidecar_temperatures env = none := by
      simp [sidecar_temperatures, h1]
    have hcf : cpu_temp_fallback env = none := by
      unfold cpu_temp_fallback
      by_cases hw : env.isWindows <;> simp [hw, h2, h5]
    have hgf : gpu_temp_fallback env = none := by
      unfold gpu_temp_fallback
      by_cases hw : env.isWindows <;> simp [hw, h3, h6]
    unfold get_system_metrics
    rw [hm]
    by_cases hw : env.isWindows <;>
      simp [get_cpu_temperature, get_gpu_temperature, hst, hcf, hgf, hw, h4] <;>
      exact ⟨_, rfl, rfl, rfl, rfl⟩

/-- Witness for C7 at an environment where every source fails. -/
theorem claim_C7_witness :
    (get_system_metrics collectEnvFail).isOk = true ∧
    (get_system_metrics collectEnvFail).toOption.map (fun m =>
      (m.cpu_temperature, m.gpu_temperature, m.gpu_usage)) =
      some (none, none, none) :=
  ⟨(claim_C7 collectEnvFail).1, (claim_C7 collectEnvFail).2 (by decide)⟩

/-- C1 counterexample: a sidecar body that parses as a full metrics record
with `cpu_temperature = 500` — out of range, since normalization discards
`500` — is propagated unchanged by `get_system_metrics` instead of being
discarded and replaced from SensorProbe. -/
theorem claim_C1_counterexample :
    (get_system_metrics envHot).toOption.map SystemMetrics.cpu_temperature =
      some (some 500) ∧
    normalize_temperature (some 500) = none := by
  exact ⟨rfl, by decide⟩

/-- C1 amended: out-of-range sidecar temperatures are discarded only on the
fallback path, and independently per field. When the sidecar body does not
parse as a full metrics record, any single temperature field whose
normalization discards it never reaches the result: `get_system_metrics`
fills that field from the platform SensorProbe chain instead, regardless of
whether the other temperature field is kept. -/
theorem claim_C1_amended (env : CollectEnv) (b : SidecarBody)
    (hb : env.sidecar = some b) (hp : parseSystemMetrics b = none) :
    (normalize_temperature b.cpu_temperature = none →
      (get_system_metrics env).toOption.map SystemMetrics.cpu_temperature =
        some (cpu_temp_fallback env)) ∧
    (normalize_temperature b.gpu_temperature = none →
      (get_system_metrics env).toOption.map SystemMetrics.gpu_temperature =
        some (gpu_temp_fallback env)) := by
  have hm : sidecar_metrics env = none := by simp [sidecar_metrics, hb, hp]
  have hst : sidecar_temperatures env =
      some { cpu_temperature := normalize_temperature b.cpu_temperature
             gpu_temperature := normalize_temperature b.gpu_temperature } := by
    simp [sidecar_temperatures, hb]
  constructor
  · intro hc
    have hct : get_cpu_temperature env = cpu_temp_fallback env := by
      unfold get_cpu_temperature
      rw [hst]
      dsimp only
      rw [hc]
    unfold get_system_metrics
    rw [hm]
    simp [hct]
    exact ⟨_, rfl, rfl⟩
  · intro hg
    have hgt : get_gpu_temperature env = gpu_temp_fallback env := by
      unfold get_gpu_temperature
      rw [hst]
      dsimp only
      rw [hg]
    unfold get_system_metrics
    rw [hm]
    simp [hgt]
    exact ⟨_, rfl, rfl⟩

/-- Witness for C1 at the mixed case: a non-parsing body carrying
`cpu_temperature = 500` (out of range, discarded) alongside an in-range
`gpu_temperature = 40`; the CPU field falls back to the component sensor. -/
theorem claim_C1_witness :
    (get_system_metrics envPartialHot).toOption.map SystemMetrics.cpu_temperature =
      some (cpu_temp_fallback envPartialHot) :=
  (claim_C1_amended envPartialHot bodyPartialHot rfl rfl).1 (by decide)

/-- C2 counterexample: when the sidecar body parses as a full metrics
record, `cpu_usage`, `memory_total` and `memory_used` are taken from the
sidecar body (`10`, `8`, `4`) and not from the local sysinfo readers, which
here all read `0`. -/
theorem claim_C2_counterexample :
    (get_system_metrics envHot).toOption.map (fun m =>
      (m.cpu_usage, m.memory_total, m.memory_used)) = some (10, 8, 4) ∧
    envHot.sysCpuUsage = 0 ∧ envHot.memTotal = 0 ∧ envHot.memUsed = 0 :=
  ⟨rfl, rfl, rfl, rfl⟩

/-- C2 amended: `cpu_usage`, `memory_total`, `memory_used` and `disks` are
collected via the local sysinfo readers exactly when the sidecar request
fails or its body does not parse as a full metrics record; when it parses,
these fields come from the sidecar body. -/
theorem claim_C2_amended (env : CollectEnv)
    (h : sidecar_metrics env = none) :
    (get_system_metrics env).toOption.map (fun m =>
      (m.cpu_usage, m.memory_total, m.memory_used, m.disks)) =
      some (env.sysCpuUsage, env.memTotal, env.memUsed,
        env.diskList.map mkDiskUsage) := by
  unfold get_system_metrics
  rw [h]
  rfl

/-- Witness for C2 at an environment without a sidecar. -/
theorem claim_C2_witness :
    (get_system_metrics collectEnvFail).toOption.map (fun m =>
      (m.cpu_usage, m.memory_total, m.memory_used, m.disks)) =
      some (collectEnvFail.sysCpuUsage, collectEnvFail.memTotal,
        collectEnvFail.memUsed, collectEnvFail.diskList.map mkDiskUsage) :=
  claim_C2_amended collectEnvFail rfl

end Divoom
